import Mathlib

/-!
Verification development for the athena-nodejs-client repository.

The embedding covers the ClassifierSdk class (streaming session management,
sendClassifyRequest, classifySingle, close, the keep-alive interval) and the
computeHashesFromStream payload preparer.  External collaborators (the crypto
digests, the sharp image decoder, the opencv-wasm resizer, the brotli
compressor, the randomUUID generator and the unary gRPC transport) are modelled
as oracle functions gathered in an environment structure; the facts the code
relies on (digest byte lengths, the fixed 448x448x3 output of the resizer) are
carried as proof fields of that structure.  Buffers and streams are modelled as
their byte sequences (List Nat); a Readable and a Buffer holding the same bytes
are indistinguishable to the code, which only ever consumes the byte sequence.
-/

namespace AthenaClient

/-- HashType from the generated protobuf models (models.ts spells the
constructors HASH_TYPE_MD5 and HASH_TYPE_SHA1; the older generation spells
them MD5 and SHA1 - same enum values). -/
inductive HashType where
  | MD5
  | SHA1
deriving DecidableEq, Repr

/-- RequestEncoding from the generated protobuf models (UNCOMPRESSED and
BROTLI, spelled REQUEST_ENCODING_UNCOMPRESSED and REQUEST_ENCODING_BROTLI in
the newer generation). -/
inductive RequestEncoding where
  | UNCOMPRESSED
  | BROTLI
deriving DecidableEq, Repr

/-- ImageFormat from the generated protobuf models.  Only the constructors the
client logic distinguishes are listed; JPEG stands in for the explicit caller
supplied raster formats. -/
inductive ImageFormat where
  | UNSPECIFIED
  | RAW_UINT8_BGR
  | JPEG
deriving DecidableEq, Repr

/-- ImageHash protobuf message: one computed hash value with its algorithm. -/
structure ImageHash where
  value : String
  type : HashType
deriving DecidableEq, Repr

/-- ClassificationInput protobuf message as the client builds it.  The
encoding field is Option because on the classifySingle path the JS object is
built with the raw caller field, which may be undefined. -/
structure ClassificationInput where
  affiliate : String
  correlationId : String
  encoding : Option RequestEncoding
  data : List Nat
  format : ImageFormat
  hashes : List ImageHash
deriving DecidableEq, Repr

/-- ClassifyRequest protobuf message: the request envelope written on the
stream. -/
structure ClassifyRequestMsg where
  deploymentId : String
  inputs : List ClassificationInput
deriving DecidableEq, Repr

/-- Opaque model of the ClassificationOutput protobuf response message: the
client never constructs or inspects it, it only relays what the transport
delivers. -/
structure ClassificationOutput where
  raw : Nat
deriving DecidableEq, Repr

/-- Result of sharp decode with removeAlpha and raw depth uchar: pixel
dimensions plus the RGB pixel bytes. -/
structure DecodedImage where
  width : Nat
  height : Nat
  pixels : List Nat
deriving DecidableEq, Repr

/-- The sixteen lowercase hex digit characters used by the crypto digest hex
encoding. -/
def hexDigits : List Char :=
  "0123456789abcdef".toList

/-- One hex digit character (out-of-range indices cannot occur for byte
nibbles; the default is irrelevant). -/
def hexDigitChar (n : Nat) : Char :=
  hexDigits.getD n '0'

/-- Model of the digest hex output: each byte becomes two lowercase hex digit
characters. -/
def hexEncode (bs : List Nat) : String :=
  String.mk (bs.flatMap fun b => [hexDigitChar (b / 16 % 16), hexDigitChar (b % 16)])

/-- Model of the JS check value.trim() being nonempty: trim only removes
leading and trailing whitespace, so the trimmed string is nonempty exactly
when some character is not whitespace. -/
def jsTrimNonEmpty (s : String) : Bool :=
  s.data.any fun c => !c.isWhitespace

/-- Environment of external collaborators, with the contracts the client code
relies on carried as proof fields. -/
structure Env where
  /-- crypto md5 digest bytes of a byte sequence (16 bytes). -/
  md5Digest : List Nat → List Nat
  /-- crypto sha1 digest bytes of a byte sequence (20 bytes). -/
  sha1Digest : List Nat → List Nat
  md5Digest_length : ∀ bs, (md5Digest bs).length = 16
  sha1Digest_length : ∀ bs, (sha1Digest bs).length = 20
  /-- sharp decode with removeAlpha and raw output; none models a decode
  rejection on unsupported input. -/
  sharpDecode : List Nat → Option DecodedImage
  /-- sharp metadata: width and height of the encoded image; none models a
  rejection on unsupported input. -/
  sharpMetadata : List Nat → Option (Nat × Nat)
  /-- opencv resize of the decoded RGB pixels onto a 448x448 CV_8UC3 matrix. -/
  cvResizeTo448 : DecodedImage → List Nat
  cvResizeTo448_length : ∀ img, (cvResizeTo448 img).length = 448 * 448 * 3
  /-- brotli compress. -/
  brotliCompress : List Nat → List Nat
  /-- randomUUID supply, indexed by draw order. -/
  uuid : Nat → String
  /-- the unary classifySingle transport call: resolves with one output or
  rejects with the reported transport error. -/
  classifySingleRpc : ClassificationInput → Except String ClassificationOutput

/-- The channel reorder loop of the resize path: for each RGB triple the
output takes the bytes in reversed order, producing BGR.  The source only
applies this to the resizer output, whose length is a multiple of three; the
shorter leftover cases are unreachable there. -/
def bgrSwap : List Nat → List Nat
  | r :: g :: b :: rest => b :: g :: r :: bgrSwap rest
  | [] => []
  | [x] => [x]
  | [x, y] => [x, y]

/-- The dimension handling block of computeHashesFromStream: with resize the
bytes are decoded, resized onto 448x448 and reordered to BGR with the format
forced to the raw format; without resize the bytes pass through unchanged but
the decoded dimensions must already be 448x448. -/
def resizePipeline (env : Env) (input : List Nat) (imageFormat : ImageFormat)
    (resize : Bool) : Except String (List Nat × ImageFormat) :=
  if resize then
    match env.sharpDecode input with
    | none => Except.error "unsupported image input"
    | some decoded =>
        Except.ok (bgrSwap (env.cvResizeTo448 decoded), ImageFormat.RAW_UINT8_BGR)
  else
    match env.sharpMetadata input with
    | none => Except.error "unsupported image input"
    | some wh =>
        if wh.1 ≠ 448 ∨ wh.2 ≠ 448 then Except.error "Image must be 448x448 pixels"
        else Except.ok (input, imageFormat)

/-- Result record of computeHashesFromStream. -/
structure HashOutput where
  md5? : Option String
  sha1? : Option String
  data : List Nat
  format : ImageFormat
deriving DecidableEq, Repr

/-- computeHashesFromStream from hashing.ts.  The digest taps observe the full
original byte sequence; each digest is produced only when its hash type was
requested.  Dimension handling is resizePipeline; afterwards brotli compression
is applied when the BROTLI encoding is requested. -/
def computeHashesFromStream (env : Env) (input : List Nat)
    (encoding : RequestEncoding) (imageFormat : ImageFormat) (resize : Bool)
    (hashes : List HashType) : Except String HashOutput :=
  match resizePipeline env input imageFormat resize with
  | Except.error e => Except.error e
  | Except.ok (d, fmt) =>
      Except.ok
        { md5? :=
            if HashType.MD5 ∈ hashes then some (hexEncode (env.md5Digest input))
            else none
          sha1? :=
            if HashType.SHA1 ∈ hashes then some (hexEncode (env.sha1Digest input))
            else none
          data := if encoding = RequestEncoding.BROTLI then env.brotliCompress d else d
          format := fmt }

/-- The resize-or-format variant of the ClassifyImageInput union: the presence
of the resize field selects the resize variant, otherwise the caller supplies
an explicit format. -/
inductive ImageVariant where
  | resizeOn
  | rawFormat (format : ImageFormat)
deriving DecidableEq, Repr

/-- ClassifyImageInput: the caller supplied options object of
sendClassifyRequest and classifySingle.  Optional fields are Option; data is
the byte sequence of the stream or buffer. -/
structure ClassifyImageInput where
  affiliate? : Option String
  correlationId? : Option String
  data : List Nat
  encoding? : Option RequestEncoding
  includeHashes? : Option (List HashType)
  variant : ImageVariant
deriving DecidableEq, Repr

/-- The resize-in-options membership test used by the SDK. -/
def ClassifyImageInput.hasResize (i : ClassifyImageInput) : Bool :=
  match i.variant with
  | ImageVariant.resizeOn => true
  | ImageVariant.rawFormat _ => false

/-- inputFormat resolution: UNSPECIFIED unless the options carry an explicit
format (no resize field present). -/
def inputFormatOf (i : ClassifyImageInput) : ImageFormat :=
  match i.variant with
  | ImageVariant.resizeOn => ImageFormat.UNSPECIFIED
  | ImageVariant.rawFormat f => f

/-- ClassifierSdkOptions: the configuration the SDK keeps.  The gRPC address
and the authentication options are omitted: they only configure the transport
and the token supplier, which the modelled logic reaches through the oracle
environment. -/
structure ClassifierSdkOptions where
  deploymentId : String
  affiliate : String
  keepAliveInterval? : Option Nat
deriving DecidableEq, Repr

/-- Events the SDK emits on its event surface. -/
inductive SdkEvent where
  | opened
  | closed
  | errored
deriving DecidableEq, Repr

/-- Mutable state of a ClassifierSdk instance together with the observable
side effects relevant to the claims.  Timer handles and stream handles are
modelled as fresh natural identifiers; liveTimers holds the intervals that
were scheduled and not yet cleared (clearInterval removes the handle from it
but, like the source, never resets the keepAlive field itself).  writes logs
every write performed on a stream. -/
structure SdkState where
  classifierGrpcCall : Option Nat
  keepAlive : Option Nat
  metadataSet : Bool
  liveTimers : List Nat
  nextTimerId : Nat
  nextStreamId : Nat
  writes : List (Nat × ClassifyRequestMsg)
  events : List SdkEvent
deriving DecidableEq, Repr

/-- Fresh SDK instance: no stream, no timer, no cached metadata. -/
def initState : SdkState :=
  { classifierGrpcCall := none
    keepAlive := none
    metadataSet := false
    liveTimers := []
    nextTimerId := 0
    nextStreamId := 0
    writes := []
    events := [] }

/-- clearInterval applied to the keepAlive field: removes the referenced
interval from the scheduled set when the field holds a handle. -/
def clearKeepAlive : Option Nat → List Nat → List Nat
  | some t, l => l.erase t
  | none, l => l

/-- External triggers driving the session state machine: the public open and
close calls, the terminal transport events of the current stream, and a firing
of a scheduled interval (authOk tells whether the token refresh inside the
tick succeeded). -/
inductive Trigger where
  | openCall
  | closeCall
  | streamEnd
  | streamClose
  | tick (t : Nat) (authOk : Bool)
deriving DecidableEq, Repr

/-- One atomic step of the session machine; each JS handler body runs to
completion as one step.
open(): caches metadata on first use, installs a fresh stream handle, schedules
a fresh keep-alive interval (without clearing a previous one) and emits open.
close(): when a stream handle is present, clears the keep-alive interval, ends
the stream, nulls the handle and emits close; otherwise does nothing.
The end and close transport handlers clear the keep-alive interval, null the
handle and emit close.
A tick only runs for a still-scheduled interval; it writes an empty-inputs
envelope carrying the configured deployment id when a stream handle and the
cached metadata are present, and surfaces a token refresh failure as an error
event instead of a write. -/
def step (cfg : ClassifierSdkOptions) (s : SdkState) : Trigger → SdkState
  | Trigger.openCall =>
      { s with
        metadataSet := true
        classifierGrpcCall := some s.nextStreamId
        nextStreamId := s.nextStreamId + 1
        keepAlive := some s.nextTimerId
        liveTimers := s.liveTimers ++ [s.nextTimerId]
        nextTimerId := s.nextTimerId + 1
        events := s.events ++ [SdkEvent.opened] }
  | Trigger.closeCall =>
      match s.classifierGrpcCall with
      | some _ =>
          { s with
            liveTimers := clearKeepAlive s.keepAlive s.liveTimers
            classifierGrpcCall := none
            events := s.events ++ [SdkEvent.closed] }
      | none => s
  | Trigger.streamEnd =>
      { s with
        liveTimers := clearKeepAlive s.keepAlive s.liveTimers
        classifierGrpcCall := none
        events := s.events ++ [SdkEvent.closed] }
  | Trigger.streamClose =>
      { s with
        liveTimers := clearKeepAlive s.keepAlive s.liveTimers
        events := s.events ++ [SdkEvent.closed]
        classifierGrpcCall := none }
  | Trigger.tick t authOk =>
      if t ∈ s.liveTimers then
        match s.classifierGrpcCall with
        | some sid =>
            if s.metadataSet then
              if authOk then
                { s with
                  writes := s.writes ++ [(sid, { deploymentId := cfg.deploymentId, inputs := [] })] }
              else { s with events := s.events ++ [SdkEvent.errored] }
            else s
        | none => s
      else s

/-- States reachable from a fresh instance under any trigger sequence. -/
inductive Reachable (cfg : ClassifierSdkOptions) : SdkState → Prop where
  | init : Reachable cfg initState
  | next {s : SdkState} (e : Trigger) : Reachable cfg s → Reachable cfg (step cfg s e)

/-- A sequence of interval firings. -/
def runTicks (cfg : ClassifierSdkOptions) (s : SdkState) : List (Nat × Bool) → SdkState
  | [] => s
  | (t, a) :: rest => runTicks cfg (step cfg s (Trigger.tick t a)) rest

/-- The hash filtering of the SDK: a hash entry is kept only when the digest
string is present and does not trim to the empty string. -/
def mkHashes (md5? sha1? : Option String) : List ImageHash :=
  (match md5? with
   | some m => if jsTrimNonEmpty m then [{ value := m, type := HashType.MD5 }] else []
   | none => []) ++
  (match sha1? with
   | some s => if jsTrimNonEmpty s then [{ value := s, type := HashType.SHA1 }] else []
   | none => [])

/-- The per-input body of the sendClassifyRequest loop: resolve the defaults
(affiliate from the configuration, correlationId from a fresh randomUUID draw,
the MD5 and SHA1 pair as default hash list, UNCOMPRESSED as default encoding),
invoke computeHashesFromStream, drop blank hash values and build the
ClassificationInput. -/
def processInput (env : Env) (cfg : ClassifierSdkOptions) (uuidIdx : Nat)
    (options : ClassifyImageInput) : Except String ClassificationInput :=
  match computeHashesFromStream env options.data
      (options.encoding?.getD RequestEncoding.UNCOMPRESSED) (inputFormatOf options)
      options.hasResize (options.includeHashes?.getD [HashType.MD5, HashType.SHA1]) with
  | Except.error e => Except.error e
  | Except.ok out =>
      Except.ok
        { affiliate := options.affiliate?.getD cfg.affiliate
          correlationId := options.correlationId?.getD (env.uuid uuidIdx)
          encoding := some (options.encoding?.getD RequestEncoding.UNCOMPRESSED)
          data := out.data
          format := out.format
          hashes := mkHashes out.md5? out.sha1? }

/-- The sequential preparation loop of sendClassifyRequest, also counting how
many times the payload preparer was invoked: processing stops at the first
preparation failure and its rejection propagates. -/
def processInputs (env : Env) (cfg : ClassifierSdkOptions) (uuidIdx : Nat) :
    List ClassifyImageInput → Except String (List ClassificationInput) × Nat
  | [] => (Except.ok [], 0)
  | o :: rest =>
      match processInput env cfg uuidIdx o with
      | Except.error e => (Except.error e, 1)
      | Except.ok ci =>
          match processInputs env cfg (uuidIdx + 1) rest with
          | (Except.error e, n) => (Except.error e, n + 1)
          | (Except.ok cis, n) => (Except.ok (ci :: cis), n + 1)

/-- Outcome of one sendClassifyRequest call: the state afterwards, the
rejection if any, and the number of payload preparer invocations. -/
structure SendResult where
  state : SdkState
  error? : Option String
  prepCalls : Nat
deriving DecidableEq, Repr

/-- sendClassifyRequest: rejects at entry when no stream handle is present,
before invoking any collaborator; otherwise prepares every input sequentially,
assembles one ClassifyRequest envelope from all prepared inputs plus the
configured deployment id and performs exactly one write of it (the write
helper re-reads the handle, mirroring the source; backpressure only delays the
resolution and is not observable here).  A single non-array input is the
singleton batch. -/
def sendClassifyRequest (env : Env) (cfg : ClassifierSdkOptions) (s : SdkState)
    (request : List ClassifyImageInput) : SendResult :=
  match s.classifierGrpcCall with
  | none =>
      { state := s
        error? := some "gRPC stream is not open. Call open() first."
        prepCalls := 0 }
  | some _ =>
      match processInputs env cfg 0 request with
      | (Except.error e, n) => { state := s, error? := some e, prepCalls := n }
      | (Except.ok processedInputs, n) =>
          let classifyRequest : ClassifyRequestMsg :=
            { deploymentId := cfg.deploymentId, inputs := processedInputs }
          match s.classifierGrpcCall with
          | some sid =>
              { state := { s with writes := s.writes ++ [(sid, classifyRequest)] }
                error? := none
                prepCalls := n }
          | none => { state := s, error? := none, prepCalls := n }

/-- The input-building half of classifySingle.  Note the source builds its
options object from the configured affiliate, a fresh randomUUID draw, the
fixed MD5 and SHA1 list and the raw caller encoding field, ignoring any caller
supplied affiliate, correlationId or includeHashes; the possibly-undefined
encoding reaches the prepared ClassificationInput unresolved while the
preparer call falls back to its UNCOMPRESSED default parameter. -/
def classifySingleInput (env : Env) (cfg : ClassifierSdkOptions)
    (request : ClassifyImageInput) (uuidIdx : Nat) : Except String ClassificationInput :=
  match computeHashesFromStream env request.data
      (request.encoding?.getD RequestEncoding.UNCOMPRESSED) (inputFormatOf request)
      request.hasResize [HashType.MD5, HashType.SHA1] with
  | Except.error e => Except.error e
  | Except.ok out =>
      Except.ok
        { affiliate := cfg.affiliate
          correlationId := env.uuid uuidIdx
          data := out.data
          format := out.format
          encoding := request.encoding?
          hashes := mkHashes out.md5? out.sha1? }

/-- classifySingle: prepares one input and performs the unary call, resolving
with its response or rejecting with the reported transport error.  The state
argument is taken like the source method takes its receiver but is never
consulted: there is no stream-handle precondition. -/
def classifySingle (env : Env) (cfg : ClassifierSdkOptions) (s : SdkState)
    (request : ClassifyImageInput) (uuidIdx : Nat) : Except String ClassificationOutput :=
  match classifySingleInput env cfg request uuidIdx with
  | Except.error e => Except.error e
  | Except.ok input => env.classifySingleRpc input

/-- The preparation step of one batch element succeeds (with the same resolved
arguments the loop body passes). -/
def prepOk (env : Env) (o : ClassifyImageInput) : Prop :=
  ∃ out,
    computeHashesFromStream env o.data (o.encoding?.getD RequestEncoding.UNCOMPRESSED)
      (inputFormatOf o) o.hasResize (o.includeHashes?.getD [HashType.MD5, HashType.SHA1]) =
      Except.ok out

/-- The preparation step of one batch element rejects. -/
def prepFails (env : Env) (o : ClassifyImageInput) : Prop :=
  ∃ e,
    computeHashesFromStream env o.data (o.encoding?.getD RequestEncoding.UNCOMPRESSED)
      (inputFormatOf o) o.hasResize (o.includeHashes?.getD [HashType.MD5, HashType.SHA1]) =
      Except.error e

/-! Concrete sample environments and inputs used by the witnesses. -/

/-- Sample oracle environment: digests are constant byte patterns of the
correct lengths, metadata always reports 448x448, decode always rejects,
brotli is the identity, the uuid supply is indexed. -/
def env0 : Env :=
  { md5Digest := fun _ => List.replicate 16 1
    sha1Digest := fun _ => List.replicate 20 2
    md5Digest_length := fun _ => List.length_replicate 16 1
    sha1Digest_length := fun _ => List.length_replicate 20 2
    sharpDecode := fun _ => none
    sharpMetadata := fun _ => some (448, 448)
    cvResizeTo448 := fun _ => List.replicate (448 * 448 * 3) 7
    cvResizeTo448_length := fun _ => List.length_replicate (448 * 448 * 3) 7
    brotliCompress := fun bs => bs
    uuid := fun n => "uuid-" ++ toString n
    classifySingleRpc := fun _ => Except.ok { raw := 0 } }

/-- A small decoded image sample. -/
def img0 : DecodedImage :=
  { width := 2, height := 2, pixels := List.replicate 12 5 }

/-- Variant of env0 whose metadata reports non-matching dimensions and whose
decoder succeeds on img0. -/
def envBad : Env :=
  { env0 with
    sharpMetadata := fun _ => some (100, 200)
    sharpDecode := fun _ => some img0 }

/-- Sample configuration. -/
def cfg0 : ClassifierSdkOptions :=
  { deploymentId := "dep-1", affiliate := "aff-default", keepAliveInterval? := none }

/-- Sample batch input with an explicit correlation id. -/
def inA : ClassifyImageInput :=
  { affiliate? := none
    correlationId? := some "cid-a"
    data := [1]
    encoding? := none
    includeHashes? := none
    variant := ImageVariant.rawFormat ImageFormat.JPEG }

/-- Second sample batch input with a distinct explicit correlation id. -/
def inB : ClassifyImageInput :=
  { affiliate? := none
    correlationId? := some "cid-b"
    data := [2]
    encoding? := none
    includeHashes? := none
    variant := ImageVariant.rawFormat ImageFormat.JPEG }

/-- Sample input whose preparation rejects under env0 (resize requested, the
decoder rejects). -/
def badIn : ClassifyImageInput :=
  { affiliate? := none
    correlationId? := some "cid-bad"
    data := [3]
    encoding? := none
    includeHashes? := none
    variant := ImageVariant.resizeOn }

/-- Sample classifySingle request carrying explicit caller fields that the
source ignores. -/
def req0 : ClassifyImageInput :=
  { affiliate? := some "caller-aff"
    correlationId? := some "caller-cid"
    data := [9]
    encoding? := some RequestEncoding.UNCOMPRESSED
    includeHashes? := some [HashType.SHA1]
    variant := ImageVariant.rawFormat ImageFormat.JPEG }

/-- Sample classifySingle request without caller overrides. -/
def req1 : ClassifyImageInput :=
  { affiliate? := none
    correlationId? := none
    data := [4]
    encoding? := some RequestEncoding.UNCOMPRESSED
    includeHashes? := none
    variant := ImageVariant.rawFormat ImageFormat.JPEG }

/-- A state with an open stream handle, as used by witnesses. -/
def sOpen : SdkState :=
  step cfg0 initState Trigger.openCall

/-- Sample successful preparation result for the classifySingle witness. -/
def out1 : HashOutput :=
  { md5? := some (hexEncode (env0.md5Digest [4]))
    sha1? := some (hexEncode (env0.sha1Digest [4]))
    data := [4]
    format := ImageFormat.JPEG }

/-- Timer bookkeeping invariant of the session machine: an open stream anchors
the keepAlive field to a still-scheduled interval; with the stream closed the
keepAlive field never references a still-scheduled interval; scheduled
interval handles are distinct and below the allocation counter. -/
structure TimerInv (s : SdkState) : Prop where
  anchored : ∀ sid, s.classifierGrpcCall = some sid →
    ∃ t, s.keepAlive = some t ∧ t ∈ s.liveTimers
  staleCleared : s.classifierGrpcCall = none →
    ∀ t, s.keepAlive = some t → t ∉ s.liveTimers
  nodup : s.liveTimers.Nodup
  bounded : ∀ t ∈ s.liveTimers, t < s.nextTimerId

/-! Hex digest facts. -/

theorem hexDigitChar_not_whitespace (n : Nat) : (hexDigitChar n).isWhitespace = false := by
  unfold hexDigitChar hexDigits
  rcases Nat.lt_or_ge n 16 with h | h
  · interval_cases n <;> decide
  · rw [List.getD_eq_default]
    · decide
    · simpa using h

theorem hexEncode_data (bs : List Nat) :
    (hexEncode bs).data =
      bs.flatMap fun b => [hexDigitChar (b / 16 % 16), hexDigitChar (b % 16)] := rfl

theorem jsTrimNonEmpty_hexEncode (bs : List Nat) (h : bs ≠ []) :
    jsTrimNonEmpty (hexEncode bs) = true := by
  unfold jsTrimNonEmpty
  rw [hexEncode_data]
  cases bs with
  | nil => exact absurd rfl h
  | cons b rest =>
      simp [List.flatMap_cons, hexDigitChar_not_whitespace]

theorem bgrSwap_length : ∀ xs : List Nat, (bgrSwap xs).length = xs.length
  | [] => by simp [bgrSwap]
  | [x] => by simp [bgrSwap]
  | [x, y] => by simp [bgrSwap]
  | r :: g :: b :: rest => by
      simp [bgrSwap, bgrSwap_length rest]

theorem md5Digest_ne_nil (env : Env) (bs : List Nat) : env.md5Digest bs ≠ [] := by
  intro hnil
  have := env.md5Digest_length bs
  rw [hnil] at this
  simp at this

theorem sha1Digest_ne_nil (env : Env) (bs : List Nat) : env.sha1Digest bs ≠ [] := by
  intro hnil
  have := env.sha1Digest_length bs
  rw [hnil] at this
  simp at this

/-! Shape of a successful preparation result. -/

theorem computeHashes_ok_fields (env : Env) (input : List Nat)
    (encoding : RequestEncoding) (imageFormat : ImageFormat) (resize : Bool)
    (hs : List HashType) (out : HashOutput)
    (h : computeHashesFromStream env input encoding imageFormat resize hs = Except.ok out) :
    out.md5? = (if HashType.MD5 ∈ hs then some (hexEncode (env.md5Digest input)) else none) ∧
    out.sha1? = (if HashType.SHA1 ∈ hs then some (hexEncode (env.sha1Digest input)) else none) := by
  unfold computeHashesFromStream at h
  cases hr : resizePipeline env input imageFormat resize with
  | error e => rw [hr] at h; cases h
  | ok p =>
      rw [hr] at h
      cases h
      exact ⟨rfl, rfl⟩

/-! Session machine invariant. -/

theorem timerInv_init : TimerInv initState := by
  refine ⟨?_, ?_, ?_, ?_⟩ <;> simp [initState]

theorem clearKeepAlive_subset (ka : Option Nat) (l : List Nat) (t : Nat)
    (h : t ∈ clearKeepAlive ka l) : t ∈ l := by
  cases ka with
  | none => exact h
  | some t0 => exact List.mem_of_mem_erase h

theorem clearKeepAlive_nodup (ka : Option Nat) (l : List Nat) (h : l.Nodup) :
    (clearKeepAlive ka l).Nodup := by
  cases ka with
  | none => exact h
  | some t0 => exact h.erase t0

theorem keepAlive_not_mem_clear (s : SdkState) (inv : TimerInv s) (t : Nat)
    (hka : s.keepAlive = some t) :
    t ∉ clearKeepAlive s.keepAlive s.liveTimers := by
  rw [hka]
  intro hmem
  rcases (List.Nodup.mem_erase_iff inv.nodup).mp hmem with ⟨hne, _⟩
  exact hne rfl

theorem timerInv_step (cfg : ClassifierSdkOptions) (s : SdkState) (e : Trigger)
    (inv : TimerInv s) : TimerInv (step cfg s e) := by
  cases e with
  | openCall =>
      refine ⟨?_, ?_, ?_, ?_⟩
      · intro sid _
        exact ⟨s.nextTimerId, rfl, by simp [step]⟩
      · intro hnone
        simp [step] at hnone
      · show (s.liveTimers ++ [s.nextTimerId]).Nodup
        rw [List.nodup_append]
        refine ⟨inv.nodup, by simp, ?_⟩
        intro a ha hb
        simp at hb
        rw [hb] at ha
        exact Nat.lt_irrefl _ (inv.bounded _ ha)
      · intro t ht
        show t < s.nextTimerId + 1
        rcases List.mem_append.mp ht with h | h
        · exact Nat.lt_succ_of_lt (inv.bounded t h)
        · simp at h
          subst h
          exact Nat.lt_succ_self _
  | closeCall =>
      cases hc : s.classifierGrpcCall with
      | none => simpa [step, hc] using inv
      | some sid =>
          simp only [step, hc]
          refine ⟨?_, ?_, ?_, ?_⟩
          · intro sid' h
            simp at h
          · intro _ t hka
            exact keepAlive_not_mem_clear s inv t hka
          · exact clearKeepAlive_nodup _ _ inv.nodup
          · intro t ht
            exact inv.bounded t (clearKeepAlive_subset _ _ _ ht)
  | streamEnd =>
      simp only [step]
      refine ⟨?_, ?_, ?_, ?_⟩
      · intro sid h
        simp at h
      · intro _ t hka
        exact keepAlive_not_mem_clear s inv t hka
      · exact clearKeepAlive_nodup _ _ inv.nodup
      · intro t ht
        exact inv.bounded t (clearKeepAlive_subset _ _ _ ht)
  | streamClose =>
      simp only [step]
      refine ⟨?_, ?_, ?_, ?_⟩
      · intro sid h
        simp at h
      · intro _ t hka
        exact keepAlive_not_mem_clear s inv t hka
      · exact clearKeepAlive_nodup _ _ inv.nodup
      · intro t ht
        exact inv.bounded t (clearKeepAlive_subset _ _ _ ht)
  | tick t authOk =>
      rcases Decidable.em (t ∈ s.liveTimers) with hmem | hmem
      · cases hc : s.classifierGrpcCall with
        | none => simpa [step, hmem, hc] using inv
        | some sid =>
            cases hm : s.metadataSet with
            | false => simpa [step, hmem, hc, hm] using inv
            | true =>
                cases authOk with
                | true =>
                    simp only [step, hmem, hc, hm, if_pos, if_true]
                    exact ⟨fun sid' h => inv.anchored sid' (by simpa [hc] using h),
                      fun hnone => by simp [hc] at hnone, inv.nodup, inv.bounded⟩
                | false =>
                    simp only [step, hmem, hc, hm, if_pos, Bool.false_eq_true, if_false]
                    exact ⟨fun sid' h => inv.anchored sid' (by simpa [hc] using h),
                      fun hnone => by simp [hc] at hnone, inv.nodup, inv.bounded⟩
      · simpa [step, hmem] using inv

theorem reachable_timerInv (cfg : ClassifierSdkOptions) (s : SdkState)
    (h : Reachable cfg s) : TimerInv s := by
  induction h with
  | init => exact timerInv_init
  | next e _ ih => exact timerInv_step _ _ e ih

/-! Behaviour of interval firings once the stream handle is nulled. -/

theorem tick_closed (cfg : ClassifierSdkOptions) (s : SdkState) (t : Nat) (a : Bool)
    (h : s.classifierGrpcCall = none) : step cfg s (Trigger.tick t a) = s := by
  simp [step, h]

theorem runTicks_closed (cfg : ClassifierSdkOptions) :
    ∀ (ts : List (Nat × Bool)) (s : SdkState), s.classifierGrpcCall = none →
      runTicks cfg s ts = s := by
  intro ts
  induction ts with
  | nil => intro s _; rfl
  | cons p rest ih =>
      intro s h
      obtain ⟨t, a⟩ := p
      show runTicks cfg (step cfg s (Trigger.tick t a)) rest = s
      rw [tick_closed cfg s t a h]
      exact ih s h

theorem closeCall_closes (cfg : ClassifierSdkOptions) (s : SdkState) :
    (step cfg s Trigger.closeCall).classifierGrpcCall = none := by
  cases h : s.classifierGrpcCall with
  | none => simp [step, h]
  | some sid => simp [step, h]

/-! Batch preparation loop lemmas. -/

theorem processInput_of_prepOk (env : Env) (cfg : ClassifierSdkOptions)
    (idx : Nat) (o : ClassifyImageInput) (hok : prepOk env o) :
    ∃ out, computeHashesFromStream env o.data (o.encoding?.getD RequestEncoding.UNCOMPRESSED)
        (inputFormatOf o) o.hasResize (o.includeHashes?.getD [HashType.MD5, HashType.SHA1]) =
        Except.ok out ∧
      processInput env cfg idx o =
        Except.ok
          { affiliate := o.affiliate?.getD cfg.affiliate
            correlationId := o.correlationId?.getD (env.uuid idx)
            encoding := some (o.encoding?.getD RequestEncoding.UNCOMPRESSED)
            data := out.data
            format := out.format
            hashes := mkHashes out.md5? out.sha1? } := by
  rcases hok with ⟨out, hout⟩
  refine ⟨out, hout, ?_⟩
  unfold processInput
  rw [hout]


theorem processInputs_all_ok (env : Env) (cfg : ClassifierSdkOptions) :
    ∀ (inputs : List ClassifyImageInput) (idx : Nat),
      (∀ o ∈ inputs, prepOk env o) →
      ∃ cis, processInputs env cfg idx inputs = (Except.ok cis, inputs.length) ∧
        List.Forall₂ (fun (o : ClassifyImageInput) (c : ClassificationInput) =>
          ∃ k, processInput env cfg k o = Except.ok c) inputs cis := by
  intro inputs
  induction inputs with
  | nil =>
      intro idx _
      exact ⟨[], rfl, List.Forall₂.nil⟩
  | cons o rest ih =>
      intro idx hall
      rcases processInput_of_prepOk env cfg idx o (hall o (by simp)) with ⟨out, _, hpi⟩
      rcases ih (idx + 1) (fun o' h' => hall o' (by simp [h'])) with ⟨cis, hrest, hrel⟩
      refine ⟨_ :: cis, ?_, List.Forall₂.cons ⟨idx, hpi⟩ hrel⟩
      rw [processInputs, hpi, hrest]
      simp

theorem processInputs_first_failure (env : Env) (cfg : ClassifierSdkOptions) :
    ∀ (inputs : List ClassifyImageInput) (idx : Nat),
      (∃ o ∈ inputs, prepFails env o) →
      ∃ e n, processInputs env cfg idx inputs = (Except.error e, n) := by
  intro inputs
  induction inputs with
  | nil =>
      intro idx h
      rcases h with ⟨o, ho, _⟩
      cases ho
  | cons o rest ih =>
      intro idx hfail
      cases hpi : processInput env cfg idx o with
      | error e =>
          exact ⟨e, 1, by rw [processInputs, hpi]⟩
      | ok ci =>
          have htail : ∃ o ∈ rest, prepFails env o := by
            rcases hfail with ⟨o', ho', hf⟩
            rcases List.mem_cons.mp ho' with rfl | hmem
            · exfalso
              rcases hf with ⟨e, he⟩
              unfold processInput at hpi
              simp [he] at hpi
            · exact ⟨o', hmem, hf⟩
          rcases ih (idx + 1) htail with ⟨e, n, htl⟩
          exact ⟨e, n + 1, by rw [processInputs, hpi, htl]⟩

/-! Claim theorems. -/

/-- C1: with no open streaming session (null stream handle), any call to
sendClassifyRequest rejects with the not-open error at entry: the payload
preparer computeHashesFromStream is never invoked (zero preparer calls) and
the session state is untouched. -/
theorem C1_session_precondition (env : Env) (cfg : ClassifierSdkOptions)
    (s : SdkState) (request : List ClassifyImageInput)
    (h : s.classifierGrpcCall = none) :
    (sendClassifyRequest env cfg s request).error? =
      some "gRPC stream is not open. Call open() first." ∧
    (sendClassifyRequest env cfg s request).prepCalls = 0 ∧
    (sendClassifyRequest env cfg s request).state = s := by
  simp [sendClassifyRequest, h]

/-- Witness for C1 at a fresh instance and a concrete input. -/
theorem C1_session_precondition_witness :
    initState.classifierGrpcCall = none ∧
    ((sendClassifyRequest env0 cfg0 initState [inA]).error? =
        some "gRPC stream is not open. Call open() first." ∧
      (sendClassifyRequest env0 cfg0 initState [inA]).prepCalls = 0 ∧
      (sendClassifyRequest env0 cfg0 initState [inA]).state = initState) :=
  ⟨rfl, C1_session_precondition env0 cfg0 initState [inA] rfl⟩

/-- C6: after close() on an instance with an open session, no number of
subsequent keep-alive interval firings produces any further write: the write
log after any tick sequence equals the write log right after close. -/
theorem C6_no_heartbeat_write_after_close (cfg : ClassifierSdkOptions)
    (s : SdkState) (hr : Reachable cfg s)
    (hopen : s.classifierGrpcCall.isSome = true) (ticks : List (Nat × Bool)) :
    (runTicks cfg (step cfg s Trigger.closeCall) ticks).writes =
      (step cfg s Trigger.closeCall).writes := by
  rw [runTicks_closed cfg ticks _ (closeCall_closes cfg s)]

/-- Witness for C6 after one open, with three interval firings after close. -/
theorem C6_no_heartbeat_write_after_close_witness :
    sOpen.classifierGrpcCall.isSome = true ∧
    (runTicks cfg0 (step cfg0 sOpen Trigger.closeCall)
        [(0, true), (0, false), (1, true)]).writes =
      (step cfg0 sOpen Trigger.closeCall).writes :=
  ⟨rfl, C6_no_heartbeat_write_after_close cfg0 sOpen
    (Reachable.next Trigger.openCall Reachable.init) rfl [(0, true), (0, false), (1, true)]⟩

/-- C8: close() is idempotent on observable state: a second close() performs
no action at all (the state, including the emitted event log, the write log
and the timer bookkeeping, is exactly the state after the first close), it
cannot throw (the model of close is total), and after either call the stream
handle is null. -/
theorem C8_close_idempotent (cfg : ClassifierSdkOptions) (s : SdkState) :
    step cfg (step cfg s Trigger.closeCall) Trigger.closeCall =
      step cfg s Trigger.closeCall ∧
    (step cfg s Trigger.closeCall).classifierGrpcCall = none ∧
    (step cfg (step cfg s Trigger.closeCall) Trigger.closeCall).classifierGrpcCall =
      none := by
  cases h : s.classifierGrpcCall with
  | none => simp [step, h]
  | some sid => simp [step, h]

/-- C3: in every reachable state a non-null stream handle implies the
keepAlive field references a still-scheduled interval, and each terminal
transition (caller close, transport end, transport close) is one atomic step
after which the stream handle is null and the interval referenced by the
keepAlive field is no longer scheduled. -/
theorem C3_timer_stream_invariant (cfg : ClassifierSdkOptions) (s : SdkState)
    (hr : Reachable cfg s) :
    (∀ sid, s.classifierGrpcCall = some sid →
      ∃ t, s.keepAlive = some t ∧ t ∈ s.liveTimers) ∧
    (∀ e, (e = Trigger.closeCall ∨ e = Trigger.streamEnd ∨ e = Trigger.streamClose) →
      (step cfg s e).classifierGrpcCall = none ∧
      ∀ t, s.keepAlive = some t → t ∉ (step cfg s e).liveTimers) := by
  have inv := reachable_timerInv cfg s hr
  refine ⟨inv.anchored, ?_⟩
  intro e he
  rcases he with rfl | rfl | rfl
  · cases hc : s.classifierGrpcCall with
    | none =>
        have hs : step cfg s Trigger.closeCall = s := by simp [step, hc]
        rw [hs]
        exact ⟨hc, fun t hka => inv.staleCleared hc t hka⟩
    | some sid =>
        constructor
        · simp [step, hc]
        · intro t hka
          simp only [step, hc]
          exact keepAlive_not_mem_clear s inv t hka
  · constructor
    · simp [step]
    · intro t hka
      simp only [step]
      exact keepAlive_not_mem_clear s inv t hka
  · constructor
    · simp [step]
    · intro t hka
      simp only [step]
      exact keepAlive_not_mem_clear s inv t hka

/-- Witness for C3 at the state reached by one open(). -/
theorem C3_timer_stream_invariant_witness :
    (∀ sid, sOpen.classifierGrpcCall = some sid →
      ∃ t, sOpen.keepAlive = some t ∧ t ∈ sOpen.liveTimers) ∧
    (∀ e, (e = Trigger.closeCall ∨ e = Trigger.streamEnd ∨ e = Trigger.streamClose) →
      (step cfg0 sOpen e).classifierGrpcCall = none ∧
      ∀ t, sOpen.keepAlive = some t → t ∉ (step cfg0 sOpen e).liveTimers) :=
  C3_timer_stream_invariant cfg0 sOpen (Reachable.next Trigger.openCall Reachable.init)

/-- C10: calling open() while a session is active does not cancel the first
interval: it stays scheduled, the keepAlive field now references the new
interval (so a later close() cancels only the new one and the first remains
scheduled), and a firing of the first interval still writes a heartbeat
envelope on whichever stream handle is current. -/
theorem C10_reopen_leaks_first_timer (cfg : ClassifierSdkOptions) (s : SdkState)
    (hr : Reachable cfg s) (t1 : Nat)
    (hka : s.keepAlive = some t1) (hlive : t1 ∈ s.liveTimers) :
    t1 ∈ (step cfg s Trigger.openCall).liveTimers ∧
    (step cfg s Trigger.openCall).keepAlive ≠ some t1 ∧
    t1 ∈ (step cfg (step cfg s Trigger.openCall) Trigger.closeCall).liveTimers ∧
    (step cfg s Trigger.openCall).classifierGrpcCall = some s.nextStreamId ∧
    (step cfg (step cfg s Trigger.openCall) (Trigger.tick t1 true)).writes =
      (step cfg s Trigger.openCall).writes ++
        [(s.nextStreamId, { deploymentId := cfg.deploymentId, inputs := [] })] := by
  have inv := reachable_timerInv cfg s hr
  have hbound : t1 < s.nextTimerId := inv.bounded t1 hlive
  have hne : t1 ≠ s.nextTimerId := Nat.ne_of_lt hbound
  refine ⟨?_, ?_, ?_, ?_, ?_⟩
  · simp only [step]
    exact List.mem_append_left _ hlive
  · simp only [step]
    intro h
    exact hne (Option.some.inj h).symm
  · simp only [step, clearKeepAlive]
    exact (List.mem_erase_of_ne hne).mpr (List.mem_append_left _ hlive)
  · simp only [step]
  · have hmem : t1 ∈ s.liveTimers ++ [s.nextTimerId] := List.mem_append_left _ hlive
    simp [step, hmem]

/-- Witness for C10 at the state reached by one open(). -/
theorem C10_reopen_leaks_first_timer_witness :
    sOpen.keepAlive = some 0 ∧ 0 ∈ sOpen.liveTimers ∧
    (0 ∈ (step cfg0 sOpen Trigger.openCall).liveTimers ∧
      (step cfg0 sOpen Trigger.openCall).keepAlive ≠ some 0 ∧
      0 ∈ (step cfg0 (step cfg0 sOpen Trigger.openCall) Trigger.closeCall).liveTimers ∧
      (step cfg0 sOpen Trigger.openCall).classifierGrpcCall = some sOpen.nextStreamId ∧
      (step cfg0 (step cfg0 sOpen Trigger.openCall) (Trigger.tick 0 true)).writes =
        (step cfg0 sOpen Trigger.openCall).writes ++
          [(sOpen.nextStreamId, { deploymentId := cfg0.deploymentId, inputs := [] })]) :=
  ⟨rfl, by decide,
    C10_reopen_leaks_first_timer cfg0 sOpen
      (Reachable.next Trigger.openCall Reachable.init) 0 rfl (by decide)⟩

/-! Per-element facts about prepared inputs, for the batch claims. -/

theorem processInput_correlationId (env : Env) (cfg : ClassifierSdkOptions)
    (k : Nat) (o : ClassifyImageInput) (c : ClassificationInput)
    (h : processInput env cfg k o = Except.ok c) :
    c.correlationId = o.correlationId?.getD (env.uuid k) := by
  unfold processInput at h
  cases hr : computeHashesFromStream env o.data
      (o.encoding?.getD RequestEncoding.UNCOMPRESSED) (inputFormatOf o)
      o.hasResize (o.includeHashes?.getD [HashType.MD5, HashType.SHA1]) with
  | error e => rw [hr] at h; cases h
  | ok out => rw [hr] at h; cases h; rfl

theorem processInput_default_hashes (env : Env) (cfg : ClassifierSdkOptions)
    (k : Nat) (o : ClassifyImageInput) (c : ClassificationInput)
    (hnone : o.includeHashes? = none)
    (h : processInput env cfg k o = Except.ok c) :
    c.hashes =
      [{ value := hexEncode (env.md5Digest o.data), type := HashType.MD5 },
       { value := hexEncode (env.sha1Digest o.data), type := HashType.SHA1 }] := by
  unfold processInput at h
  rw [hnone] at h
  simp only [Option.getD_none] at h
  cases hr : computeHashesFromStream env o.data
      (o.encoding?.getD RequestEncoding.UNCOMPRESSED) (inputFormatOf o)
      o.hasResize [HashType.MD5, HashType.SHA1] with
  | error e => rw [hr] at h; cases h
  | ok out =>
      rw [hr] at h
      cases h
      rcases computeHashes_ok_fields env o.data
          (o.encoding?.getD RequestEncoding.UNCOMPRESSED) (inputFormatOf o)
          o.hasResize [HashType.MD5, HashType.SHA1] out hr with ⟨h5, h1⟩
      show mkHashes out.md5? out.sha1? = _
      rw [h5, h1]
      simp [mkHashes, jsTrimNonEmpty_hexEncode _ (md5Digest_ne_nil env o.data),
        jsTrimNonEmpty_hexEncode _ (sha1Digest_ne_nil env o.data)]

theorem forall2_correlation_map (env : Env) (cfg : ClassifierSdkOptions) :
    ∀ (inputs : List ClassifyImageInput) (cis : List ClassificationInput),
      List.Forall₂ (fun o c => ∃ k, processInput env cfg k o = Except.ok c) inputs cis →
      (∀ o ∈ inputs, o.correlationId?.isSome = true) →
      cis.map (fun c => some c.correlationId) = inputs.map fun o => o.correlationId? := by
  intro inputs cis hrel
  induction hrel with
  | nil => intro _; rfl
  | @cons o c rest crest hoc _ ih =>
      intro hcid
      rcases hoc with ⟨k, hk⟩
      have hcorr := processInput_correlationId env cfg k o c hk
      rcases Option.isSome_iff_exists.mp (hcid o (by simp)) with ⟨cid, hcido⟩
      have htail := ih fun o' h' => hcid o' (by simp [h'])
      simp only [List.map_cons, htail, hcorr, hcido, Option.getD_some]

theorem forall2_default_hash_pair (env : Env) (cfg : ClassifierSdkOptions) :
    ∀ (inputs : List ClassifyImageInput) (cis : List ClassificationInput),
      List.Forall₂ (fun o c => ∃ k, processInput env cfg k o = Except.ok c) inputs cis →
      (∀ o ∈ inputs, o.includeHashes? = none) →
      ∀ c ∈ cis, ∃ m s1,
        c.hashes = [{ value := m, type := HashType.MD5 },
                    { value := s1, type := HashType.SHA1 }] ∧
        jsTrimNonEmpty m = true ∧ jsTrimNonEmpty s1 = true := by
  intro inputs cis hrel
  induction hrel with
  | nil => intro _ c hc; cases hc
  | @cons o c rest crest hoc _ ih =>
      intro hnone c' hc'
      rcases List.mem_cons.mp hc' with rfl | hmem
      · rcases hoc with ⟨k, hk⟩
        refine ⟨hexEncode (env.md5Digest o.data), hexEncode (env.sha1Digest o.data),
          processInput_default_hashes env cfg k o c' (hnone o (by simp)) hk, ?_, ?_⟩
        · exact jsTrimNonEmpty_hexEncode _ (md5Digest_ne_nil env o.data)
        · exact jsTrimNonEmpty_hexEncode _ (sha1Digest_ne_nil env o.data)
      · exact ih (fun o' h' => hnone o' (by simp [h'])) c' hmem

/-- C2: with an open session, a batch of inputs each carrying an explicit and
distinct correlationId yields exactly one write of one envelope whose prepared
inputs are as many as the batch elements, in batch order, each preserving the
correlationId of the input at its position (order preserved, never sorted, so
reordering the batch reorders the envelope identically). -/
theorem C2_batch_envelope_correlation (env : Env) (cfg : ClassifierSdkOptions)
    (s : SdkState) (sid : Nat) (inputs : List ClassifyImageInput)
    (hopen : s.classifierGrpcCall = some sid)
    (hprep : ∀ o ∈ inputs, prepOk env o)
    (hcid : ∀ o ∈ inputs, o.correlationId?.isSome = true)
    (hdist : (inputs.map fun o => o.correlationId?).Nodup) :
    (sendClassifyRequest env cfg s inputs).error? = none ∧
    ∃ envMsg : ClassifyRequestMsg,
      (sendClassifyRequest env cfg s inputs).state.writes = s.writes ++ [(sid, envMsg)] ∧
      envMsg.deploymentId = cfg.deploymentId ∧
      envMsg.inputs.length = inputs.length ∧
      envMsg.inputs.map (fun c => some c.correlationId) =
        inputs.map fun o => o.correlationId? := by
  rcases processInputs_all_ok env cfg inputs 0 hprep with ⟨cis, hproc, hrel⟩
  have hmap := forall2_correlation_map env cfg inputs cis hrel hcid
  have hsend : sendClassifyRequest env cfg s inputs =
      { state :=
          { s with writes := s.writes ++
              [(sid, { deploymentId := cfg.deploymentId, inputs := cis })] }
        error? := none
        prepCalls := inputs.length } := by
    simp [sendClassifyRequest, hopen, hproc]
  rw [hsend]
  refine ⟨rfl, { deploymentId := cfg.deploymentId, inputs := cis }, rfl, rfl, ?_, hmap⟩
  have hlen := congrArg List.length hmap
  simpa using hlen

theorem prepOk_inA : prepOk env0 inA := ⟨_, rfl⟩

theorem prepOk_inB : prepOk env0 inB := ⟨_, rfl⟩

/-- Witness for C2 at an open session with two concrete inputs carrying
distinct explicit correlation ids. -/
theorem C2_batch_envelope_correlation_witness :
    sOpen.classifierGrpcCall = some 0 ∧
    ((sendClassifyRequest env0 cfg0 sOpen [inA, inB]).error? = none ∧
      ∃ envMsg : ClassifyRequestMsg,
        (sendClassifyRequest env0 cfg0 sOpen [inA, inB]).state.writes =
          sOpen.writes ++ [(0, envMsg)] ∧
        envMsg.deploymentId = cfg0.deploymentId ∧
        envMsg.inputs.length = ([inA, inB] : List ClassifyImageInput).length ∧
        envMsg.inputs.map (fun c => some c.correlationId) =
          ([inA, inB] : List ClassifyImageInput).map fun o => o.correlationId?) :=
  ⟨rfl, C2_batch_envelope_correlation env0 cfg0 sOpen 0 [inA, inB] rfl
    (by
      intro o ho
      rcases List.mem_cons.mp ho with rfl | ho'
      · exact prepOk_inA
      · rcases List.mem_cons.mp ho' with rfl | ho''
        · exact prepOk_inB
        · cases ho'')
    (by decide) (by decide)⟩

/-- C7: with an open session, every input submitted without an explicit
hash-type list yields a prepared input whose hash list has exactly two
entries, for the two distinct default algorithms MD5 and SHA1 in that order,
both with non-blank values. -/
theorem C7_default_hash_set (env : Env) (cfg : ClassifierSdkOptions)
    (s : SdkState) (sid : Nat) (inputs : List ClassifyImageInput)
    (hopen : s.classifierGrpcCall = some sid)
    (hprep : ∀ o ∈ inputs, prepOk env o)
    (hnone : ∀ o ∈ inputs, o.includeHashes? = none) :
    (sendClassifyRequest env cfg s inputs).error? = none ∧
    ∃ envMsg : ClassifyRequestMsg,
      (sendClassifyRequest env cfg s inputs).state.writes = s.writes ++ [(sid, envMsg)] ∧
      ∀ c ∈ envMsg.inputs,
        c.hashes.length = 2 ∧
        (c.hashes.map fun hsh => hsh.type) = [HashType.MD5, HashType.SHA1] ∧
        HashType.MD5 ≠ HashType.SHA1 ∧
        ∀ hsh ∈ c.hashes, jsTrimNonEmpty hsh.value = true := by
  rcases processInputs_all_ok env cfg inputs 0 hprep with ⟨cis, hproc, hrel⟩
  have hpair := forall2_default_hash_pair env cfg inputs cis hrel hnone
  have hsend : sendClassifyRequest env cfg s inputs =
      { state :=
          { s with writes := s.writes ++
              [(sid, { deploymentId := cfg.deploymentId, inputs := cis })] }
        error? := none
        prepCalls := inputs.length } := by
    simp [sendClassifyRequest, hopen, hproc]
  rw [hsend]
  refine ⟨rfl, { deploymentId := cfg.deploymentId, inputs := cis }, rfl, ?_⟩
  intro c hc
  rcases hpair c hc with ⟨m, s1, hhs, hm, hs1⟩
  rw [hhs]
  refine ⟨rfl, rfl, by decide, ?_⟩
  intro hsh hmem
  rcases List.mem_cons.mp hmem with rfl | hmem'
  · exact hm
  · rcases List.mem_cons.mp hmem' with rfl | hmem''
    · exact hs1
    · cases hmem''

/-- Witness for C7 at an open session with two concrete inputs carrying no
explicit hash-type list. -/
theorem C7_default_hash_set_witness :
    sOpen.classifierGrpcCall = some 0 ∧
    ((sendClassifyRequest env0 cfg0 sOpen [inA, inB]).error? = none ∧
      ∃ envMsg : ClassifyRequestMsg,
        (sendClassifyRequest env0 cfg0 sOpen [inA, inB]).state.writes =
          sOpen.writes ++ [(0, envMsg)] ∧
        ∀ c ∈ envMsg.inputs,
          c.hashes.length = 2 ∧
          (c.hashes.map fun hsh => hsh.type) = [HashType.MD5, HashType.SHA1] ∧
          HashType.MD5 ≠ HashType.SHA1 ∧
          ∀ hsh ∈ c.hashes, jsTrimNonEmpty hsh.value = true) :=
  ⟨rfl, C7_default_hash_set env0 cfg0 sOpen 0 [inA, inB] rfl
    (by
      intro o ho
      rcases List.mem_cons.mp ho with rfl | ho'
      · exact prepOk_inA
      · rcases List.mem_cons.mp ho' with rfl | ho''
        · exact prepOk_inB
        · cases ho'')
    (by decide)⟩

/-- C9: batch submission is atomic with respect to the stream: if preparation
rejects for any input of the batch, the whole call rejects and the session
state, including the write log, is untouched (the single write happens only
after the whole batch prepared). -/
theorem C9_batch_atomic_on_failure (env : Env) (cfg : ClassifierSdkOptions)
    (s : SdkState) (sid : Nat) (inputs : List ClassifyImageInput)
    (hopen : s.classifierGrpcCall = some sid)
    (hfail : ∃ o ∈ inputs, prepFails env o) :
    ((sendClassifyRequest env cfg s inputs).error?).isSome = true ∧
    (sendClassifyRequest env cfg s inputs).state = s := by
  rcases processInputs_first_failure env cfg inputs 0 hfail with ⟨e, n, hproc⟩
  simp [sendClassifyRequest, hopen, hproc]

/-- Witness for C9 at an open session: the second input of the batch fails
preparation, the call rejects and the state is untouched. -/
theorem C9_batch_atomic_on_failure_witness :
    sOpen.classifierGrpcCall = some 0 ∧
    (((sendClassifyRequest env0 cfg0 sOpen [inA, badIn]).error?).isSome = true ∧
      (sendClassifyRequest env0 cfg0 sOpen [inA, badIn]).state = sOpen) :=
  ⟨rfl, C9_batch_atomic_on_failure env0 cfg0 sOpen 0 [inA, badIn] rfl
    ⟨badIn, by simp, ⟨_, rfl⟩⟩⟩

/-- C4: for a decodable image whose reported dimensions are not 448x448,
preparation without resize rejects with the dimension-mismatch error, while
preparation of the same input with resize succeeds, producing the raw format,
a fixed-size 448x448x3 buffer in the canonical BGR channel order, and applying
brotli compression exactly when the BROTLI encoding is requested. -/
theorem C4_resize_dimension_contract (env : Env) (input : List Nat) (w h : Nat)
    (img : DecodedImage) (enc : RequestEncoding) (fmt : ImageFormat)
    (hs : List HashType)
    (hmeta : env.sharpMetadata input = some (w, h))
    (hdims : ¬(w = 448 ∧ h = 448))
    (hdec : env.sharpDecode input = some img) :
    computeHashesFromStream env input enc fmt false hs =
      Except.error "Image must be 448x448 pixels" ∧
    ∃ out, computeHashesFromStream env input enc fmt true hs = Except.ok out ∧
      out.format = ImageFormat.RAW_UINT8_BGR ∧
      (bgrSwap (env.cvResizeTo448 img)).length = 448 * 448 * 3 ∧
      out.data = (if enc = RequestEncoding.BROTLI
        then env.brotliCompress (bgrSwap (env.cvResizeTo448 img))
        else bgrSwap (env.cvResizeTo448 img)) := by
  have hcond : w ≠ 448 ∨ h ≠ 448 := by
    rcases Decidable.em (w = 448) with h1 | h1
    · right
      intro h2
      exact hdims ⟨h1, h2⟩
    · left
      exact h1
  constructor
  · simp [computeHashesFromStream, resizePipeline, hmeta, hcond]
  · have hok : computeHashesFromStream env input enc fmt true hs =
        Except.ok
          { md5? :=
              if HashType.MD5 ∈ hs then some (hexEncode (env.md5Digest input)) else none
            sha1? :=
              if HashType.SHA1 ∈ hs then some (hexEncode (env.sha1Digest input)) else none
            data := if enc = RequestEncoding.BROTLI
              then env.brotliCompress (bgrSwap (env.cvResizeTo448 img))
              else bgrSwap (env.cvResizeTo448 img)
            format := ImageFormat.RAW_UINT8_BGR } := by
      simp [computeHashesFromStream, resizePipeline, hdec]
    refine ⟨_, hok, rfl, ?_, rfl⟩
    rw [bgrSwap_length]
    exact env.cvResizeTo448_length img

/-- Witness for C4 with a concrete 100x200 metadata report and a concrete
decodable image. -/
theorem C4_resize_dimension_contract_witness :
    envBad.sharpMetadata [3] = some (100, 200) ∧
    ¬(100 = 448 ∧ 200 = 448) ∧
    (computeHashesFromStream envBad [3] RequestEncoding.UNCOMPRESSED ImageFormat.JPEG
        false [HashType.MD5, HashType.SHA1] =
      Except.error "Image must be 448x448 pixels" ∧
    ∃ out, computeHashesFromStream envBad [3] RequestEncoding.UNCOMPRESSED ImageFormat.JPEG
        true [HashType.MD5, HashType.SHA1] = Except.ok out ∧
      out.format = ImageFormat.RAW_UINT8_BGR ∧
      (bgrSwap (envBad.cvResizeTo448 img0)).length = 448 * 448 * 3 ∧
      out.data = (if RequestEncoding.UNCOMPRESSED = RequestEncoding.BROTLI
        then envBad.brotliCompress (bgrSwap (envBad.cvResizeTo448 img0))
        else bgrSwap (envBad.cvResizeTo448 img0))) :=
  ⟨rfl, by decide,
    C4_resize_dimension_contract envBad [3] 100 200 img0 RequestEncoding.UNCOMPRESSED
      ImageFormat.JPEG [HashType.MD5, HashType.SHA1] rfl (by decide) rfl⟩

/-- C5 counterexample: classifySingle, as the source builds its options
object, does not honour the caller's affiliate, correlationId or hash-type
list: for a concrete request carrying all three, the prepared input uses the
configured affiliate and a fresh uuid, and still contains an MD5 hash the
caller did not request.  This refutes the claim that the single-shot path
prepares its input honouring those caller fields. -/
theorem C5_counterexample_caller_fields_ignored :
    req0.affiliate? = some "caller-aff" ∧
    req0.correlationId? = some "caller-cid" ∧
    req0.includeHashes? = some [HashType.SHA1] ∧
    ∃ ci, classifySingleInput env0 cfg0 req0 0 = Except.ok ci ∧
      ci.affiliate ≠ "caller-aff" ∧
      ci.correlationId ≠ "caller-cid" ∧
      HashType.MD5 ∈ ci.hashes.map fun hsh => hsh.type := by
  refine ⟨rfl, rfl, rfl, _, rfl, ?_, ?_, ?_⟩ <;> decide

/-- C5 (amended): classifySingle requires no open streaming session (it
performs no stream-handle check and proceeds with the session closed),
prepares exactly one input using the configured affiliate, a freshly
generated correlationId, the fixed default hash-type list and the caller's
raw encoding field, invokes one unary call with that input and resolves with
its result or rejects with the reported transport error. -/
theorem C5_single_shot_amended (env : Env) (cfg : ClassifierSdkOptions)
    (s : SdkState) (req : ClassifyImageInput) (idx : Nat) (out : HashOutput)
    (hclosed : s.classifierGrpcCall = none)
    (hprep : computeHashesFromStream env req.data
        (req.encoding?.getD RequestEncoding.UNCOMPRESSED) (inputFormatOf req)
        req.hasResize [HashType.MD5, HashType.SHA1] = Except.ok out) :
    ∃ ci, classifySingleInput env cfg req idx = Except.ok ci ∧
      ci.affiliate = cfg.affiliate ∧
      ci.correlationId = env.uuid idx ∧
      ci.encoding = req.encoding? ∧
      ci.data = out.data ∧
      ci.format = out.format ∧
      ci.hashes = mkHashes out.md5? out.sha1? ∧
      classifySingle env cfg s req idx = env.classifySingleRpc ci := by
  have hinput : classifySingleInput env cfg req idx =
      Except.ok
        { affiliate := cfg.affiliate
          correlationId := env.uuid idx
          data := out.data
          format := out.format
          encoding := req.encoding?
          hashes := mkHashes out.md5? out.sha1? } := by
    unfold classifySingleInput
    rw [hprep]
  refine ⟨_, hinput, rfl, rfl, rfl, rfl, rfl, rfl, ?_⟩
  unfold classifySingle
  rw [hinput]

/-- Witness for the amended C5 at a closed session and a concrete request. -/
theorem C5_single_shot_amended_witness :
    initState.classifierGrpcCall = none ∧
    ∃ ci, classifySingleInput env0 cfg0 req1 0 = Except.ok ci ∧
      ci.affiliate = cfg0.affiliate ∧
      ci.correlationId = env0.uuid 0 ∧
      ci.encoding = req1.encoding? ∧
      ci.data = out1.data ∧
      ci.format = out1.format ∧
      ci.hashes = mkHashes out1.md5? out1.sha1? ∧
      classifySingle env0 cfg0 initState req1 0 = env0.classifySingleRpc ci :=
  ⟨rfl, C5_single_shot_amended env0 cfg0 initState req1 0 out1 rfl rfl⟩

end AthenaClient
